import Mathlib

/-!
Shallow embedding of the planet synchronization engine of the
`pit-solutions-django-challenge` repository:

* `api/services/data_generator.py` — `PlanetDataGenerator`
* `api/services/sync_service.py`   — `PlanetSyncService`
* `api/models.py`                  — the `Planet` row shape

Python dict fields are modelled by `Field` (absent key / key present with
`None` / key present with a value), so that `dict.get(k)` and
`dict.get(k, default)` keep their exact Python semantics (the default is used
only when the key is absent, not when its value is `None`).

Randomness is made explicit: every call of `random.choice`, `random.randint`
and `random.sample` consumes values from an explicit `Rand` record.
`random.randint(lo, hi)` is embedded as `lo + r % (hi + 1 - lo)`, which ranges
over exactly the interval `[lo, hi]` as the seed `r` ranges over `Nat`, and
`random.sample(pop, k)` as `sample pop k sel`, which draws `k` distinct
elements of `pop` guided by the index choices `sel` (the source always calls
it with `k ≤ pop.length` because of the `min` clamp).

The Django ORM call `Planet.objects.update_or_create(external_id=eid, ...)`
is embedded with its documented semantics: the store is filtered by the
lookup key, where a `None` key matches rows whose `external_id` is NULL
(Django turns `field=None` into `field IS NULL`); zero matches insert,
exactly one match updates the matched row's non-key fields, and several
matches raise (`MultipleObjectsReturned`).  The `name`, `population`,
`climates` and `terrains` columns are NOT NULL (api/models.py declares only
`external_id` with `null=True`), so passing `None` for one of them in
`defaults` raises `IntegrityError`: the embedding's store rows carry plain
values in those columns and the upsert fails when a defaults value is
`none`.  `transaction.atomic` is embedded
as a pass-through: per-item exceptions are caught inside the loop and the
loop continues, exactly as written in `sync_planets`.
-/

namespace PlanetSync

/-- A field of a Python dict: the key may be absent, may be present with
value `None`, or present with a value of type `α`. -/
inductive Field (α : Type) where
  | absent
  | null
  | val (a : α)
deriving DecidableEq

/-- Python `dict.get(key)`: `None` both when the key is absent and when its
stored value is `None`. -/
def Field.get {α : Type} : Field α → Option α
  | .absent => none
  | .null => none
  | .val a => some a

/-- Python `dict.get(key, default)`: the default is used only when the key is
absent; a stored `None` is returned as `None`. -/
def Field.getD {α : Type} : Field α → α → Option α
  | .absent, d => some d
  | .null, _ => none
  | .val a, _ => some a

/-- Python truthiness of an optional integer: `None` and `0` are falsy. -/
def truthyPop (x : Option Int) : Bool :=
  match x with
  | none => false
  | some p => p != 0

/-- Python truthiness of an optional list: `None` and `[]` are falsy. -/
def truthyList (x : Option (List String)) : Bool :=
  match x with
  | none => false
  | some l => !l.isEmpty

/-- One raw planet object of the GraphQL `planets` list
(`{id, name, population, climates, terrains}`); every key may be absent or
null. -/
structure RawPlanet where
  id : Field String
  name : Field String
  population : Field Int
  climates : Field (List String)
  terrains : Field (List String)
deriving DecidableEq

/-- One entry of the fetched `planets` list: a well-formed planet dict, or a
malformed entry (not a dict), on which `_transform_planet_data` raises. -/
inductive RawItem where
  | malformed
  | item (p : RawPlanet)
deriving DecidableEq

/-! ### `PlanetDataGenerator` (api/services/data_generator.py) -/

/-- The fixed climate vocabulary `PlanetDataGenerator.CLIMATE_TYPES`. -/
def CLIMATE_TYPES : List String :=
  ["temperate", "tropical", "arid", "frozen", "humid", "windy", "hot",
   "cold", "mild", "stormy", "clear", "cloudy", "rainy", "dry", "moist",
   "foggy", "misty", "hazy", "crisp", "muggy"]

/-- The fixed terrain vocabulary `PlanetDataGenerator.TERRAIN_TYPES`. -/
def TERRAIN_TYPES : List String :=
  ["desert", "forest", "rainforest", "grassland", "tundra", "mountains",
   "hills", "plains", "swamp", "jungle", "savanna", "steppe", "marsh",
   "volcanoes", "canyons", "valleys", "plateaus", "islands", "coastlines",
   "caves", "craters", "lakes", "rivers", "oceans", "glaciers", "cliffs"]

/-- `random.randint(lo, hi)` driven by an explicit seed `r`: as `r` ranges
over `Nat` this ranges over exactly the closed interval `[lo, hi]`
(for `lo ≤ hi`). -/
def randint (lo hi r : Nat) : Nat :=
  lo + r % (hi + 1 - lo)

/-- The seven `population_ranges` of `generate_population`. -/
def population_ranges : List (Nat × Nat) :=
  [(1000, 10000), (10000, 100000), (100000, 1000000), (1000000, 10000000),
   (10000000, 100000000), (100000000, 1000000000), (1000000000, 10000000000)]

/-- `PlanetDataGenerator.generate_population`: choose one of the seven
ranges (`random.choice`, embedded as indexing by `choice % 7`), draw a
uniform integer in that range, and floor to a multiple of 1000 via
`(population // 1000) * 1000`. -/
def generate_population (choice draw : Nat) : Nat :=
  let range := population_ranges.getD (choice % population_ranges.length) (0, 0)
  randint range.1 range.2 draw / 1000 * 1000

/-- `random.sample(pop, k)` driven by explicit index choices `sel`: pick the
element at position `sel.headD 0 % pop.length`, remove it, and recurse.  For
`k ≤ pop.length` this returns `k` distinct elements of `pop` (the source only
calls it under that bound, via the `min` clamp). -/
def sample (pop : List String) : Nat → List Nat → List String
  | 0, _ => []
  | k + 1, sel =>
    let i := sel.headD 0 % pop.length
    pop.getD i "" :: sample (pop.eraseIdx i) k sel.tail

/-- `PlanetDataGenerator.generate_climates(count=None)`: when `count` is
`None` draw it as `random.randint(1, 3)`, then
`random.sample(CLIMATE_TYPES, min(count, len(CLIMATE_TYPES)))`. -/
def generate_climates (count : Option Nat) (rc : Nat) (sel : List Nat) : List String :=
  let c := match count with
    | none => randint 1 3 rc
    | some c => c
  sample CLIMATE_TYPES (min c CLIMATE_TYPES.length) sel

/-- `PlanetDataGenerator.generate_terrains(count=None)`: when `count` is
`None` draw it as `random.randint(2, 4)`, then
`random.sample(TERRAIN_TYPES, min(count, len(TERRAIN_TYPES)))`. -/
def generate_terrains (count : Option Nat) (rc : Nat) (sel : List Nat) : List String :=
  let c := match count with
    | none => randint 2 4 rc
    | some c => c
  sample TERRAIN_TYPES (min c TERRAIN_TYPES.length) sel

/-- The random draws available to one `generate_planet_data` call. -/
structure Rand where
  popChoice : Nat
  popDraw : Nat
  climCount : Nat
  climSel : List Nat
  terrCount : Nat
  terrSel : List Nat

/-- `PlanetDataGenerator.generate_planet_data(planet_name, original_data)`:
copy the input and replace `population`, `climates`, `terrains` by generated
values when the original value is falsy (`if not original_data.get(...)`).
The `planet_name` argument is accepted and ignored, exactly as in the
source. -/
def generate_planet_data (planet_name : Option String) (original_data : RawPlanet)
    (r : Rand) : RawPlanet :=
  let g0 := original_data
  let g1 := if truthyPop (original_data.population.get) then g0
    else { g0 with population := .val (Int.ofNat (generate_population r.popChoice r.popDraw)) }
  let g2 := if truthyList (original_data.climates.get) then g1
    else { g1 with climates := .val (generate_climates none r.climCount r.climSel) }
  if truthyList (original_data.terrains.get) then g2
  else { g2 with terrains := .val (generate_terrains none r.terrCount r.terrSel) }

/-! ### `PlanetSyncService` (api/services/sync_service.py) -/

/-- The dict produced by `PlanetSyncService._transform_planet_data`;
each value is the result of a Python `.get`, hence possibly `None`. -/
structure TransformedData where
  external_id : Option String
  name : Option String
  population : Option Int
  climates : Option (List String)
  terrains : Option (List String)
deriving DecidableEq

/-- `PlanetSyncService._transform_planet_data`: raises on a malformed entry;
otherwise computes `planet_name = planet_data.get("name", "Unknown Planet")`,
runs the generator (which ignores `planet_name`), and extracts the row fields
with `.get("id")`, `.get("name", "")`, `.get("population", 0)`,
`.get("climates", [])`, `.get("terrains", [])`. -/
def transform_planet_data (pd : RawItem) (r : Rand) : Except Unit TransformedData :=
  match pd with
  | .malformed => .error ()
  | .item planet_data =>
    let planet_name := planet_data.name.getD "Unknown Planet"
    let complete_data := generate_planet_data planet_name planet_data r
    .ok {
      external_id := complete_data.id.get
      name := complete_data.name.getD ""
      population := complete_data.population.getD 0
      climates := complete_data.climates.getD []
      terrains := complete_data.terrains.getD [] }

/-- A persisted `Planet` row (api/models.py), restricted to the columns the
sync engine writes.  Only `external_id` is declared `null=True`; `name`,
`population`, `climates` and `terrains` are NOT NULL columns, so a persisted
row always carries plain values there. -/
structure Planet where
  external_id : Option String
  name : String
  population : Int
  climates : List String
  terrains : List String
deriving DecidableEq

/-- The `self.stats` dict of `PlanetSyncService`. -/
@[ext]
structure Stats where
  created : Nat
  updated : Nat
  errors : Nat
  total_processed : Nat
deriving DecidableEq

/-- All-zero statistics, as assigned at the top of `sync_planets`. -/
def zeroStats : Stats := ⟨0, 0, 0, 0⟩

/-- The rows matched by the Django lookup `external_id=key`; a `none` key
matches rows with NULL `external_id` (Django `field=None` ≡ `IS NULL`). -/
def lookup_rows (store : List Planet) (key : Option String) : List Planet :=
  store.filter (fun p => p.external_id == key)

/-- The row inserted when no existing row matches the lookup key. -/
def newRow (eid : Option String) (nm : String) (pop : Int) (cl te : List String) : Planet :=
  ⟨eid, nm, pop, cl, te⟩

/-- The `defaults={...}` overwrite applied to a matched row: the non-key
columns are replaced, the key column is untouched. -/
def updRow (eid : Option String) (nm : String) (pop : Int) (cl te : List String)
    (p : Planet) : Planet :=
  if p.external_id == eid then
    { p with name := nm, population := pop, climates := cl, terrains := te }
  else p

/-- `Planet.objects.update_or_create(external_id=eid, defaults={...})`:
writing `None` into one of the NOT NULL columns (`name`, `population`,
`climates`, `terrains`) raises `IntegrityError`; otherwise no match inserts a
new row, exactly one match overwrites that row's non-key columns, and several
matches raise `MultipleObjectsReturned`.  Returns `(store, created)`. -/
def update_or_create (store : List Planet) (eid : Option String)
    (d : TransformedData) : Except Unit (List Planet × Bool) :=
  match d.name, d.population, d.climates, d.terrains with
  | some nm, some pop, some cl, some te =>
    match lookup_rows store eid with
    | [] => .ok (store ++ [newRow eid nm pop cl te], true)
    | [_] => .ok (store.map (updRow eid nm pop cl te), false)
    | _ => .error ()
  | _, _, _, _ => .error ()

/-- `PlanetSyncService._update_or_create_planet`: runs the ORM upsert (which
may also fail for an environmental database reason, the `dbFail` flag);
on success bumps `created` or `updated`; on any exception bumps `errors` and
re-raises, the raised state carrying the mutated `self.stats`. -/
def update_or_create_planet (store : List Planet) (stats : Stats)
    (planet_data : TransformedData) (dbFail : Bool) :
    Except Stats (List Planet × Bool × Stats) :=
  if dbFail then .error { stats with errors := stats.errors + 1 }
  else
    match update_or_create store planet_data.external_id planet_data with
    | .error _ => .error { stats with errors := stats.errors + 1 }
    | .ok (store2, created) =>
      if created then .ok (store2, true, { stats with created := stats.created + 1 })
      else .ok (store2, false, { stats with updated := stats.updated + 1 })

/-- The per-item loop of `sync_planets`: transform, upsert, bump
`total_processed` on success; on any exception bump `errors` and continue
with the next item.  `rand i` and `dbFail i` are the random draws and the
environmental store outcome for the item at position `i`. -/
def syncLoop (rand : Nat → Rand) (dbFail : Nat → Bool) :
    List RawItem → Nat → List Planet → Stats → List Planet × Stats
  | [], _, store, stats => (store, stats)
  | pd :: rest, i, store, stats =>
    match transform_planet_data pd (rand i) with
    | .error _ => syncLoop rand dbFail rest (i + 1) store { stats with errors := stats.errors + 1 }
    | .ok td =>
      match update_or_create_planet store stats td (dbFail i) with
      | .error stats2 =>
        syncLoop rand dbFail rest (i + 1) store { stats2 with errors := stats2.errors + 1 }
      | .ok (store2, _, stats2) =>
        syncLoop rand dbFail rest (i + 1) store2
          { stats2 with total_processed := stats2.total_processed + 1 }

/-- The `allPlanets` object of the GraphQL response; the `planets` key may be
absent. -/
structure AllPlanets where
  planets : Option (List RawItem)

/-- The `data` object returned by `fetch_planets`; the `allPlanets` key may
be absent. -/
structure FetchResponse where
  allPlanets : Option AllPlanets

/-- `response_data.get("allPlanets", {}).get("planets", [])`. -/
def extract_planets (d : FetchResponse) : List RawItem :=
  match d.allPlanets with
  | none => []
  | some a => a.planets.getD []

/-- The mutable state of a `PlanetSyncService` instance together with the
database: `store` is the `planets` table, `stats` is `self.stats` (what
`get_sync_status` reports as `last_sync_stats`). -/
structure SyncState where
  store : List Planet
  stats : Stats

/-- `PlanetSyncService.sync_planets`: reset `self.stats` to zero, then fetch;
a fetch failure propagates (with `self.stats` already reset and no row
written); otherwise run the per-item loop and return the final statistics. -/
def sync_planets (st : SyncState) (fetch : Except Unit FetchResponse)
    (rand : Nat → Rand) (dbFail : Nat → Bool) : Except Unit Stats × SyncState :=
  let st0 : SyncState := { st with stats := zeroStats }
  match fetch with
  | .error e => (.error e, st0)
  | .ok response_data =>
    let planets := extract_planets response_data
    let r := syncLoop rand dbFail planets 0 st0.store st0.stats
    (.ok r.2, { store := r.1, stats := r.2 })

/-! ### Derived notions used by the verification -/

/-- The external identifier a raw planet carries, as the sync engine reads it
(`planet_data.get("id")`). -/
def itemId (p : RawPlanet) : Option String := p.id.get

/-- The sequence of `external_id` column values of the store, in row order. -/
def storeIds (store : List Planet) : List (Option String) :=
  store.map (fun p => p.external_id)

/-- A fixed random source, used to instantiate universally quantified
statements at concrete inputs. -/
def rand0 : Rand := ⟨0, 0, 0, [], 0, []⟩

/-- A raw planet with every field present and truthy. -/
def tatooine : RawPlanet :=
  ⟨.val "1", .val "Tatooine", .val 200000, .val ["arid"], .val ["desert"]⟩

/-! ### Theorems -/

/-- C9: for every engine state and every fetch result whose extracted planet
list is empty, `sync_planets` returns `{created 0, updated 0, errors 0,
total_processed 0}` without raising and leaves the store untouched. -/
theorem sync_empty_batch (st : SyncState) (rand : Nat → Rand) (dbFail : Nat → Bool)
    (resp : FetchResponse) (h : extract_planets resp = []) :
    sync_planets st (.ok resp) rand dbFail = (.ok zeroStats, ⟨st.store, zeroStats⟩) := by
  simp [sync_planets, h, syncLoop]

/-- Witness for C9: a concrete empty response (`allPlanets` carrying an empty
`planets` list) on a concrete state. -/
theorem sync_empty_batch_witness :
    sync_planets ⟨[], zeroStats⟩ (.ok ⟨some ⟨some []⟩⟩) (fun _ => rand0) (fun _ => false) =
      (.ok zeroStats, ⟨[], zeroStats⟩) :=
  sync_empty_batch ⟨[], zeroStats⟩ (fun _ => rand0) (fun _ => false) ⟨some ⟨some []⟩⟩ rfl

/-- C3 (counterexample): the claim that a failed fetch leaves the cached
statistics at their pre-call value is false: starting from cached statistics
`{1, 0, 0, 1}` of a previous run, a failing fetch leaves the cache all-zero,
because `sync_planets` resets `self.stats` before fetching. -/
theorem sync_fetch_failure_pre_stats_lost :
    (sync_planets ⟨[], ⟨1, 0, 0, 1⟩⟩ (.error ()) (fun _ => rand0) (fun _ => false)).2.stats
        = zeroStats ∧
      zeroStats ≠ (⟨1, 0, 0, 1⟩ : Stats) :=
  ⟨rfl, by decide⟩

/-- C3 (amended): when the fetch fails, `sync_planets` propagates the error
and writes no row, but the cached statistics are reset to all-zero at the
start of the call rather than being left at their pre-call value. -/
theorem sync_fetch_failure_behaviour (st : SyncState) (rand : Nat → Rand)
    (dbFail : Nat → Bool) (e : Unit) :
    sync_planets st (.error e) rand dbFail = (.error e, ⟨st.store, zeroStats⟩) :=
  rfl

/-- The generator never touches the `id` field. -/
theorem generate_planet_data_id (n : Option String) (orig : RawPlanet) (r : Rand) :
    (generate_planet_data n orig r).id = orig.id := by
  unfold generate_planet_data
  dsimp only
  split_ifs <;> rfl

/-- The generator never touches the `name` field. -/
theorem generate_planet_data_name (n : Option String) (orig : RawPlanet) (r : Rand) :
    (generate_planet_data n orig r).name = orig.name := by
  unfold generate_planet_data
  dsimp only
  split_ifs <;> rfl

/-- Transforming a well-formed item never raises, and the produced lookup key
is the item's `id` field as read by `.get("id")`. -/
theorem transform_item_ok (p : RawPlanet) (r : Rand) :
    ∃ td, transform_planet_data (.item p) r = .ok td ∧ td.external_id = p.id.get := by
  refine ⟨_, rfl, ?_⟩
  dsimp only [transform_planet_data]
  rw [generate_planet_data_id]

/-- The generator's effect on the `population` field: kept when truthy,
otherwise replaced by a generated value. -/
theorem gpd_population_eq (n : Option String) (orig : RawPlanet) (r : Rand) :
    (generate_planet_data n orig r).population =
      if truthyPop orig.population.get then orig.population
      else .val (Int.ofNat (generate_population r.popChoice r.popDraw)) := by
  unfold generate_planet_data
  dsimp only
  split_ifs <;> rfl

/-- The generator's effect on the `climates` field: kept when truthy,
otherwise replaced by a generated tag list. -/
theorem gpd_climates_eq (n : Option String) (orig : RawPlanet) (r : Rand) :
    (generate_planet_data n orig r).climates =
      if truthyList orig.climates.get then orig.climates
      else .val (generate_climates none r.climCount r.climSel) := by
  unfold generate_planet_data
  dsimp only
  split_ifs <;> rfl

/-- The generator's effect on the `terrains` field: kept when truthy,
otherwise replaced by a generated tag list. -/
theorem gpd_terrains_eq (n : Option String) (orig : RawPlanet) (r : Rand) :
    (generate_planet_data n orig r).terrains =
      if truthyList orig.terrains.get then orig.terrains
      else .val (generate_terrains none r.terrCount r.terrSel) := by
  unfold generate_planet_data
  dsimp only
  split_ifs <;> rfl

/-- Transforming a well-formed item whose `name` key is not present-with-null
yields a row dict that satisfies every NOT NULL column constraint: the
population, climates and terrains slots are always filled (generated values
replace falsy ones), and the name slot is `""` for an absent key or the
carried string otherwise. -/
theorem transform_item_valid (p : RawPlanet) (r : Rand) (hname : p.name ≠ Field.null) :
    ∃ nm pop cl te, transform_planet_data (.item p) r =
      .ok ⟨p.id.get, some nm, some pop, some cl, some te⟩ := by
  have hn : ((generate_planet_data (p.name.getD "Unknown Planet") p r).name.getD
      "").isSome = true := by
    rw [generate_planet_data_name]
    cases hcase : p.name with
    | absent => rfl
    | null => exact absurd hcase hname
    | val a => rfl
  have hp : ((generate_planet_data (p.name.getD "Unknown Planet") p r).population.getD
      0).isSome = true := by
    rw [gpd_population_eq]
    split_ifs with h
    · cases hcase : p.population with
      | absent => rw [hcase] at h; simp [truthyPop, Field.get] at h
      | null => rw [hcase] at h; simp [truthyPop, Field.get] at h
      | val a => rfl
    · rfl
  have hc : ((generate_planet_data (p.name.getD "Unknown Planet") p r).climates.getD
      []).isSome = true := by
    rw [gpd_climates_eq]
    split_ifs with h
    · cases hcase : p.climates with
      | absent => rw [hcase] at h; simp [truthyList, Field.get] at h
      | null => rw [hcase] at h; simp [truthyList, Field.get] at h
      | val l => rfl
    · rfl
  have ht : ((generate_planet_data (p.name.getD "Unknown Planet") p r).terrains.getD
      []).isSome = true := by
    rw [gpd_terrains_eq]
    split_ifs with h
    · cases hcase : p.terrains with
      | absent => rw [hcase] at h; simp [truthyList, Field.get] at h
      | null => rw [hcase] at h; simp [truthyList, Field.get] at h
      | val l => rfl
    · rfl
  obtain ⟨nm, hnm⟩ := Option.isSome_iff_exists.1 hn
  obtain ⟨pop, hpop⟩ := Option.isSome_iff_exists.1 hp
  obtain ⟨cl, hcl⟩ := Option.isSome_iff_exists.1 hc
  obtain ⟨te, hte⟩ := Option.isSome_iff_exists.1 ht
  refine ⟨nm, pop, cl, te, ?_⟩
  simp only [transform_planet_data]
  rw [generate_planet_data_id, hnm, hpop, hcl, hte]

/-- A lookup key absent from the store matches no row. -/
theorem lookup_rows_eq_nil {store : List Planet} {k : Option String}
    (h : k ∉ storeIds store) : lookup_rows store k = [] := by
  unfold lookup_rows
  rw [List.filter_eq_nil_iff]
  intro p hp heq
  have hpk : p.external_id = k := by simpa using heq
  exact h (hpk ▸ List.mem_map_of_mem _ hp)

/-- With valid (non-null) column values, no matching row and no environmental
failure, the upsert inserts a new row and bumps `created`. -/
theorem update_or_create_planet_create (store : List Planet) (stats : Stats)
    (eid : Option String) (nm : String) (pop : Int) (cl te : List String)
    (h : eid ∉ storeIds store) :
    update_or_create_planet store stats ⟨eid, some nm, some pop, some cl, some te⟩ false =
      .ok (store ++ [newRow eid nm pop cl te], true,
           { stats with created := stats.created + 1 }) := by
  simp [update_or_create_planet, update_or_create, lookup_rows_eq_nil h]

/-- C6 (code evaluated at the failing input): syncing an item that carries no
`name` key persists `name = ""`, not the placeholder `"Unknown Planet"`: the
fallback is computed into `planet_name` but `generate_planet_data` ignores
that argument, and the stored value comes from `.get("name", "")`. -/
theorem sync_missing_name_persists_empty :
    sync_planets ⟨[], zeroStats⟩
        (.ok ⟨some ⟨some [.item ⟨.val "1", .absent, .val 200000, .val ["arid"], .val ["desert"]⟩]⟩⟩)
        (fun _ => rand0) (fun _ => false) =
      (.ok ⟨1, 0, 0, 1⟩,
       ⟨[⟨some "1", "", 200000, ["arid"], ["desert"]⟩], ⟨1, 0, 0, 1⟩⟩) ∧
      ("" : String) ≠ "Unknown Planet" :=
  ⟨rfl, by decide⟩

/-- C1 (code evaluated at the failing input): a batch whose single item fails
to persist makes `sync_planets` return successfully with `errors = 2`, not
`errors = 1` — the failure is counted once inside `_update_or_create_planet`
and again in the loop's handler.  A batch of two items where only the first
fails to map, by contrast, yields `errors = 1` with the other item still
processed. -/
theorem sync_single_failure_error_count :
    sync_planets ⟨[], zeroStats⟩ (.ok ⟨some ⟨some [.item tatooine]⟩⟩)
        (fun _ => rand0) (fun _ => true) =
      (.ok ⟨0, 0, 2, 0⟩, ⟨[], ⟨0, 0, 2, 0⟩⟩) ∧
    sync_planets ⟨[], zeroStats⟩ (.ok ⟨some ⟨some [.malformed, .item tatooine]⟩⟩)
        (fun _ => rand0) (fun _ => false) =
      (.ok ⟨1, 0, 1, 1⟩,
       ⟨[⟨some "1", "Tatooine", 200000, ["arid"], ["desert"]⟩], ⟨1, 0, 1, 1⟩⟩) :=
  ⟨rfl, rfl⟩

/-- C5 (counterexample): a raw item with null `externalId` does match an
existing record whose `external_id` is NULL: against a store holding one such
record, the sync counts the item as updated, not created, and inserts no new
row. -/
theorem sync_null_id_matches_existing :
    sync_planets ⟨[⟨none, "Old", 1, [], []⟩], zeroStats⟩
        (.ok ⟨some ⟨some [.item ⟨.null, .val "X", .val 5, .val ["a"], .val ["b"]⟩]⟩⟩)
        (fun _ => rand0) (fun _ => false) =
      (.ok ⟨0, 1, 0, 1⟩,
       ⟨[⟨none, "X", 5, ["a"], ["b"]⟩], ⟨0, 1, 0, 1⟩⟩) :=
  rfl

/-- C5 (amended): a null-`externalId` item is matched against existing
null-`externalId` records exactly like any other key; provided it maps to a
valid row (its `name` key is not present-with-null, which would violate the
NOT NULL name column), it creates a new row (and is counted as created)
precisely when the store holds no null-`externalId` record. -/
theorem sync_null_id_creates_when_absent (store : List Planet) (init : Stats)
    (p : RawPlanet) (rand : Nat → Rand) (resp : FetchResponse)
    (hresp : extract_planets resp = [.item p])
    (hid : p.id.get = none)
    (hname : p.name ≠ Field.null)
    (hstore : none ∉ storeIds store) :
    (sync_planets ⟨store, init⟩ (.ok resp) rand (fun _ => false)).1 = .ok ⟨1, 0, 0, 1⟩ ∧
      storeIds (sync_planets ⟨store, init⟩ (.ok resp) rand (fun _ => false)).2.store =
        storeIds store ++ [none] := by
  obtain ⟨nm, pop, cl, te, htd⟩ := transform_item_valid p (rand 0) hname
  have habsent : p.id.get ∉ storeIds store := by rw [hid]; exact hstore
  have hupd := update_or_create_planet_create store zeroStats p.id.get nm pop cl te habsent
  simp only [sync_planets, hresp, syncLoop, htd, hupd]
  refine ⟨rfl, ?_⟩
  simp [storeIds, newRow, hid]

/-- Witness for C5's amended theorem: against an empty store, a concrete
null-`externalId` item with a valid name is created and counted as created. -/
theorem sync_null_id_creates_when_absent_witness :
    (sync_planets ⟨[], zeroStats⟩
        (.ok ⟨some ⟨some [.item ⟨.null, .val "X", .val 5, .val ["a"], .val ["b"]⟩]⟩⟩)
        (fun _ => rand0) (fun _ => false)).1 = .ok ⟨1, 0, 0, 1⟩ ∧
      storeIds (sync_planets ⟨[], zeroStats⟩
          (.ok ⟨some ⟨some [.item ⟨.null, .val "X", .val 5, .val ["a"], .val ["b"]⟩]⟩⟩)
          (fun _ => rand0) (fun _ => false)).2.store = storeIds [] ++ [none] :=
  sync_null_id_creates_when_absent [] zeroStats
    ⟨.null, .val "X", .val 5, .val ["a"], .val ["b"]⟩ (fun _ => rand0)
    ⟨some ⟨some [.item ⟨.null, .val "X", .val 5, .val ["a"], .val ["b"]⟩]⟩⟩
    rfl rfl (by decide) (by simp [storeIds])

/-- C4 (counterexample): a raw item whose three optional fields are all
present and non-null — population `0`, climates `[]`, terrains `["desert"]` —
is not returned unchanged: `generate_planet_data` tests Python truthiness
(`if not original_data.get(...)`), so the `0` population and the empty
climates list are regenerated. -/
theorem generate_planet_data_changes_present_falsy :
    generate_planet_data (some "X") ⟨.val "1", .val "X", .val 0, .val [], .val ["desert"]⟩ rand0 ≠
        ⟨.val "1", .val "X", .val 0, .val [], .val ["desert"]⟩ ∧
      (generate_planet_data (some "X") ⟨.val "1", .val "X", .val 0, .val [], .val ["desert"]⟩
          rand0).population ≠ .val 0 ∧
      (generate_planet_data (some "X") ⟨.val "1", .val "X", .val 0, .val [], .val ["desert"]⟩
          rand0).climates ≠ .val [] := by
  decide

/-- C4 (amended): `generate_planet_data` is the identity on truthy data —
population present and non-zero, climates and terrains present and
non-empty — and the fields other than population/climates/terrains (`id` and
`name`) always pass through unchanged. -/
theorem generate_planet_data_identity (n : Option String) (orig : RawPlanet) (r : Rand) :
    (truthyPop orig.population.get = true → truthyList orig.climates.get = true →
        truthyList orig.terrains.get = true → generate_planet_data n orig r = orig) ∧
      (generate_planet_data n orig r).id = orig.id ∧
      (generate_planet_data n orig r).name = orig.name := by
  refine ⟨fun hp hc ht => ?_, generate_planet_data_id n orig r,
    generate_planet_data_name n orig r⟩
  unfold generate_planet_data
  dsimp only
  simp [hp, hc, ht]

/-- Witness for C4's amended theorem: a concrete item with truthy population,
climates and terrains is returned unchanged. -/
theorem generate_planet_data_identity_witness :
    generate_planet_data (some "X") ⟨.val "1", .val "X", .val 5, .val ["a"], .val ["b"]⟩ rand0 =
      ⟨.val "1", .val "X", .val 5, .val ["a"], .val ["b"]⟩ :=
  (generate_planet_data_identity (some "X")
    ⟨.val "1", .val "X", .val 5, .val ["a"], .val ["b"]⟩ rand0).1 rfl rfl rfl

/-- C7: every generated population is positive and divisible by 1000 — the
generator picks one of the seven magnitude ranges, draws a uniform integer in
it and floors to a multiple of 1000 — and a raw item with falsy population is
filled with exactly such a generated value. -/
theorem generate_population_spec (choice draw : Nat) (n : Option String)
    (orig : RawPlanet) (r : Rand) :
    0 < generate_population choice draw ∧
      generate_population choice draw % 1000 = 0 ∧
      (truthyPop orig.population.get = false →
        (generate_planet_data n orig r).population =
          .val (Int.ofNat (generate_population r.popChoice r.popDraw))) := by
  have h7 : population_ranges.length = 7 := rfl
  have hlo : 1000 ≤ (population_ranges.getD (choice % population_ranges.length) (0, 0)).1 := by
    rw [h7]
    have hm : choice % 7 < 7 := Nat.mod_lt _ (by norm_num)
    generalize choice % 7 = m at hm
    interval_cases m <;> decide
  refine ⟨?_, ?_, fun h => ?_⟩
  · unfold generate_population
    dsimp only
    have h1 : 1000 ≤ randint (population_ranges.getD (choice % population_ranges.length) (0, 0)).1
        (population_ranges.getD (choice % population_ranges.length) (0, 0)).2 draw :=
      le_trans hlo (Nat.le_add_right _ _)
    have h2 : 1 ≤ randint (population_ranges.getD (choice % population_ranges.length) (0, 0)).1
        (population_ranges.getD (choice % population_ranges.length) (0, 0)).2 draw / 1000 :=
      (Nat.one_le_div_iff (by norm_num)).2 h1
    exact Nat.mul_pos h2 (by norm_num)
  · unfold generate_population
    dsimp only
    exact Nat.mul_mod_left _ _
  · unfold generate_planet_data
    dsimp only
    rw [h]
    simp only [Bool.false_eq_true, if_false]
    split_ifs <;> rfl

/-- Witness for C7: the generator output at seed `(0, 0)` is positive and a
multiple of 1000, and a concrete item with null population is filled with the
generated value. -/
theorem generate_population_spec_witness :
    0 < generate_population 0 0 ∧
      generate_population 0 0 % 1000 = 0 ∧
      (generate_planet_data none ⟨.val "1", .val "X", .null, .val ["a"], .val ["b"]⟩
          rand0).population =
        .val (Int.ofNat (generate_population rand0.popChoice rand0.popDraw)) :=
  ⟨(generate_population_spec 0 0 none
      ⟨.val "1", .val "X", .null, .val ["a"], .val ["b"]⟩ rand0).1,
   (generate_population_spec 0 0 none
      ⟨.val "1", .val "X", .null, .val ["a"], .val ["b"]⟩ rand0).2.1,
   (generate_population_spec 0 0 none
      ⟨.val "1", .val "X", .null, .val ["a"], .val ["b"]⟩ rand0).2.2 rfl⟩

/-- Sampling `k ≤ pop.length` elements yields a list of length exactly `k`. -/
theorem sample_length (k : Nat) (pop : List String) (sel : List Nat) (h : k ≤ pop.length) :
    (sample pop k sel).length = k := by
  induction k generalizing pop sel with
  | zero => rfl
  | succ k ih =>
    have hpos : 0 < pop.length := Nat.lt_of_lt_of_le (Nat.succ_pos k) h
    have hi : sel.headD 0 % pop.length < pop.length := Nat.mod_lt _ hpos
    have hlen : (pop.eraseIdx (sel.headD 0 % pop.length)).length = pop.length - 1 :=
      List.length_eraseIdx_of_lt hi
    rw [sample]
    simp only [List.length_cons]
    rw [ih (pop.eraseIdx (sel.headD 0 % pop.length)) sel.tail (by omega)]

/-- Every sampled element is drawn from the population. -/
theorem sample_subset (k : Nat) (pop : List String) (sel : List Nat) (h : k ≤ pop.length) :
    ∀ x ∈ sample pop k sel, x ∈ pop := by
  induction k generalizing pop sel with
  | zero => intro x hx; simp [sample] at hx
  | succ k ih =>
    intro x hx
    have hpos : 0 < pop.length := Nat.lt_of_lt_of_le (Nat.succ_pos k) h
    have hi : sel.headD 0 % pop.length < pop.length := Nat.mod_lt _ hpos
    have hlen : (pop.eraseIdx (sel.headD 0 % pop.length)).length = pop.length - 1 :=
      List.length_eraseIdx_of_lt hi
    rw [sample] at hx
    rcases List.mem_cons.1 hx with rfl | hx2
    · rw [List.getD_eq_getElem pop "" hi]
      exact List.get_mem pop _ hi
    · exact List.eraseIdx_subset pop _
        (ih (pop.eraseIdx (sel.headD 0 % pop.length)) sel.tail (by omega) x hx2)

/-- Sampling from a duplicate-free population yields a duplicate-free list. -/
theorem sample_nodup (k : Nat) (pop : List String) (sel : List Nat) (h : k ≤ pop.length)
    (hn : pop.Nodup) : (sample pop k sel).Nodup := by
  induction k generalizing pop sel with
  | zero => simp [sample]
  | succ k ih =>
    have hpos : 0 < pop.length := Nat.lt_of_lt_of_le (Nat.succ_pos k) h
    have hi : sel.headD 0 % pop.length < pop.length := Nat.mod_lt _ hpos
    have hlen : (pop.eraseIdx (sel.headD 0 % pop.length)).length = pop.length - 1 :=
      List.length_eraseIdx_of_lt hi
    rw [sample]
    refine List.nodup_cons.2
      ⟨?_, ih (pop.eraseIdx (sel.headD 0 % pop.length)) sel.tail (by omega)
        (List.Nodup.eraseIdx _ hn)⟩
    intro hmem
    have hmem2 : pop.getD (sel.headD 0 % pop.length) "" ∈
        pop.eraseIdx (sel.headD 0 % pop.length) :=
      sample_subset k (pop.eraseIdx (sel.headD 0 % pop.length)) sel.tail (by omega) _ hmem
    rw [List.getD_eq_getElem pop "" hi] at hmem2
    rw [List.mem_eraseIdx_iff_getElem] at hmem2
    obtain ⟨j, hj, hne, heq⟩ := hmem2
    exact hne (hn.getElem_inj_iff.1 heq)

/-- C8: with an unspecified count, `generate_climates` yields between 1 and 3
pairwise-distinct tags from the 20-tag climate vocabulary and
`generate_terrains` between 2 and 4 pairwise-distinct tags from the 26-tag
terrain vocabulary; an explicit count exceeding the vocabulary size is
clamped to the vocabulary size. -/
theorem generate_tags_spec (rc rc2 c tc : Nat) (sel sel2 csel tsel : List Nat) :
    (1 ≤ (generate_climates none rc sel).length ∧
      (generate_climates none rc sel).length ≤ 3 ∧
      (generate_climates none rc sel).Nodup ∧
      ∀ x ∈ generate_climates none rc sel, x ∈ CLIMATE_TYPES) ∧
    (2 ≤ (generate_terrains none rc2 sel2).length ∧
      (generate_terrains none rc2 sel2).length ≤ 4 ∧
      (generate_terrains none rc2 sel2).Nodup ∧
      ∀ x ∈ generate_terrains none rc2 sel2, x ∈ TERRAIN_TYPES) ∧
    (CLIMATE_TYPES.length < c →
      (generate_climates (some c) rc csel).length = CLIMATE_TYPES.length) ∧
    (TERRAIN_TYPES.length < tc →
      (generate_terrains (some tc) rc2 tsel).length = TERRAIN_TYPES.length) := by
  have hc20 : CLIMATE_TYPES.length = 20 := rfl
  have ht26 : TERRAIN_TYPES.length = 26 := rfl
  have hcn : CLIMATE_TYPES.Nodup := by decide
  have htn : TERRAIN_TYPES.Nodup := by decide
  have hmc : rc % 3 < 3 := Nat.mod_lt _ (by norm_num)
  have hmt : rc2 % 3 < 3 := Nat.mod_lt _ (by norm_num)
  have hcb : randint 1 3 rc ≤ 3 ∧ 1 ≤ randint 1 3 rc := by
    unfold randint; omega
  have htb : randint 2 4 rc2 ≤ 4 ∧ 2 ≤ randint 2 4 rc2 := by
    unfold randint; omega
  have hcmin : min (randint 1 3 rc) CLIMATE_TYPES.length = randint 1 3 rc :=
    Nat.min_eq_left (by omega)
  have htmin : min (randint 2 4 rc2) TERRAIN_TYPES.length = randint 2 4 rc2 :=
    Nat.min_eq_left (by omega)
  refine ⟨⟨?_, ?_, ?_, ?_⟩, ⟨?_, ?_, ?_, ?_⟩, fun hc => ?_, fun ht => ?_⟩
  · rw [generate_climates]
    rw [hcmin, sample_length _ _ _ (by omega)]
    omega
  · rw [generate_climates]
    rw [hcmin, sample_length _ _ _ (by omega)]
    omega
  · rw [generate_climates]
    rw [hcmin]
    exact sample_nodup _ _ _ (by omega) hcn
  · rw [generate_climates]
    rw [hcmin]
    exact sample_subset _ _ _ (by omega)
  · rw [generate_terrains]
    rw [htmin, sample_length _ _ _ (by omega)]
    omega
  · rw [generate_terrains]
    rw [htmin, sample_length _ _ _ (by omega)]
    omega
  · rw [generate_terrains]
    rw [htmin]
    exact sample_nodup _ _ _ (by omega) htn
  · rw [generate_terrains]
    rw [htmin]
    exact sample_subset _ _ _ (by omega)
  · rw [generate_climates]
    rw [Nat.min_eq_right (by omega), sample_length _ _ _ (by omega)]
  · rw [generate_terrains]
    rw [Nat.min_eq_right (by omega), sample_length _ _ _ (by omega)]

/-- Witness for C8: concrete draws for both default-count generators, and the
clamped lengths for explicit counts 25 and 30. -/
theorem generate_tags_spec_witness :
    (1 ≤ (generate_climates none 0 []).length ∧
      (generate_climates none 0 []).length ≤ 3 ∧
      (generate_climates none 0 []).Nodup ∧
      ∀ x ∈ generate_climates none 0 [], x ∈ CLIMATE_TYPES) ∧
    (2 ≤ (generate_terrains none 0 []).length ∧
      (generate_terrains none 0 []).length ≤ 4 ∧
      (generate_terrains none 0 []).Nodup ∧
      ∀ x ∈ generate_terrains none 0 [], x ∈ TERRAIN_TYPES) ∧
    (generate_climates (some 25) 0 []).length = CLIMATE_TYPES.length ∧
    (generate_terrains (some 30) 0 []).length = TERRAIN_TYPES.length := by
  have h := generate_tags_spec 0 0 25 30 [] [] [] []
  exact ⟨h.1, h.2.1, h.2.2.1 (by decide), h.2.2.2 (by decide)⟩

/-- A failing upsert mutates the statistics by exactly one error count. -/
theorem update_or_create_planet_error_stats {store : List Planet} {stats : Stats}
    {d : TransformedData} {dbFail : Bool} {stats2 : Stats}
    (h : update_or_create_planet store stats d dbFail = .error stats2) :
    stats2 = { stats with errors := stats.errors + 1 } := by
  unfold update_or_create_planet at h
  split at h
  · injection h with h2
    exact h2.symm
  · split at h
    · injection h with h2
      exact h2.symm
    · split at h <;> exact Except.noConfusion h

/-- A successful upsert bumps exactly one of `created`/`updated` and leaves
`errors` and `total_processed` untouched. -/
theorem update_or_create_planet_ok_stats {store : List Planet} {stats : Stats}
    {d : TransformedData} {dbFail : Bool} {store2 : List Planet} {c : Bool}
    {stats2 : Stats}
    (h : update_or_create_planet store stats d dbFail = .ok (store2, c, stats2)) :
    stats2.created + stats2.updated = stats.created + stats.updated + 1 ∧
      stats2.errors = stats.errors ∧
      stats2.total_processed = stats.total_processed := by
  unfold update_or_create_planet at h
  split at h
  · exact Except.noConfusion h
  · split at h
    · exact Except.noConfusion h
    · split at h
      · injection h with h2
        injection h2 with ha hb
        injection hb with hb1 hb2
        subst hb2
        refine ⟨?_, rfl, rfl⟩
        show stats.created + 1 + stats.updated = stats.created + stats.updated + 1
        omega
      · injection h with h2
        injection h2 with ha hb
        injection hb with hb1 hb2
        subst hb2
        refine ⟨?_, rfl, rfl⟩
        show stats.created + (stats.updated + 1) = stats.created + stats.updated + 1
        omega

/-- Loop invariant behind C10: the per-item loop increases
`created + updated` and `total_processed` in lockstep. -/
theorem syncLoop_stats_inv (rand : Nat → Rand) (dbFail : Nat → Bool) (items : List RawItem)
    (i : Nat) (store : List Planet) (stats : Stats) :
    (syncLoop rand dbFail items i store stats).2.created +
        (syncLoop rand dbFail items i store stats).2.updated +
        stats.total_processed =
      (syncLoop rand dbFail items i store stats).2.total_processed +
        stats.created + stats.updated := by
  induction items generalizing i store stats with
  | nil =>
    simp only [syncLoop]
    omega
  | cons pd rest ih =>
    cases htr : transform_planet_data pd (rand i) with
    | error e =>
      simp only [syncLoop, htr]
      exact ih (i + 1) store _
    | ok td =>
      cases hup : update_or_create_planet store stats td (dbFail i) with
      | error stats2 =>
        have hrel := update_or_create_planet_error_stats hup
        subst hrel
        simp only [syncLoop, htr, hup]
        exact ih (i + 1) store _
      | ok r3 =>
        obtain ⟨store2, c, stats2⟩ := r3
        have hrel := update_or_create_planet_ok_stats hup
        have hstep := ih (i + 1) store2
          { stats2 with total_processed := stats2.total_processed + 1 }
        simp only [syncLoop, htr, hup]
        dsimp only at hstep
        omega

/-- C10: after every successful `sync_planets` run, the returned statistics
satisfy `created + updated = total_processed`. -/
theorem sync_stats_consistent (st : SyncState) (fetch : Except Unit FetchResponse)
    (rand : Nat → Rand) (dbFail : Nat → Bool) (s : Stats) (st2 : SyncState)
    (h : sync_planets st fetch rand dbFail = (.ok s, st2)) :
    s.created + s.updated = s.total_processed := by
  cases fetch with
  | error e =>
    simp only [sync_planets] at h
    injection h with h1 h2
    exact Except.noConfusion h1
  | ok resp =>
    simp only [sync_planets] at h
    injection h with h1 h2
    injection h1 with h3
    have h4 := syncLoop_stats_inv rand dbFail (extract_planets resp) 0 st.store zeroStats
    rw [h3] at h4
    simpa [zeroStats] using h4

/-- Witness for C10: a concrete successful one-item run has statistics
`{1, 0, 0, 1}`, and `1 + 0 = 1`. -/
theorem sync_stats_consistent_witness :
    (⟨1, 0, 0, 1⟩ : Stats).created + (⟨1, 0, 0, 1⟩ : Stats).updated =
      (⟨1, 0, 0, 1⟩ : Stats).total_processed :=
  sync_stats_consistent ⟨[], zeroStats⟩ (.ok ⟨some ⟨some [.item tatooine]⟩⟩)
    (fun _ => rand0) (fun _ => false) ⟨1, 0, 0, 1⟩
    ⟨[⟨some "1", "Tatooine", 200000, ["arid"], ["desert"]⟩],
     ⟨1, 0, 0, 1⟩⟩ rfl

/-- Unfolding lemma: no external identifiers in an empty store. -/
@[simp]
theorem storeIds_nil : storeIds [] = [] := rfl

/-- Unfolding lemma: the identifiers of a non-empty store. -/
@[simp]
theorem storeIds_cons (p : Planet) (rest : List Planet) :
    storeIds (p :: rest) = p.external_id :: storeIds rest := rfl

/-- The identifiers of a concatenation. -/
@[simp]
theorem storeIds_append (s t : List Planet) :
    storeIds (s ++ t) = storeIds s ++ storeIds t := by
  simp [storeIds]

/-- The inserted row carries the lookup key as its `external_id`. -/
@[simp]
theorem newRow_external_id (eid : Option String) (nm : String) (pop : Int)
    (cl te : List String) : (newRow eid nm pop cl te).external_id = eid := rfl

/-- The `defaults` overwrite never touches the key column. -/
theorem updRow_external_id (eid : Option String) (nm : String) (pop : Int)
    (cl te : List String) (p : Planet) :
    (updRow eid nm pop cl te p).external_id = p.external_id := by
  unfold updRow
  split <;> rfl

/-- Updating matched rows preserves the store's identifier sequence. -/
theorem storeIds_map_updRow (store : List Planet) (eid : Option String)
    (nm : String) (pop : Int) (cl te : List String) :
    storeIds (store.map (updRow eid nm pop cl te)) = storeIds store := by
  unfold storeIds
  rw [List.map_map]
  exact List.map_congr_left fun p _ => updRow_external_id eid nm pop cl te p

/-- Unfolding lemma for the Django lookup on a non-empty store. -/
theorem lookup_rows_cons (p : Planet) (rest : List Planet) (k : Option String) :
    lookup_rows (p :: rest) k =
      if p.external_id == k then p :: lookup_rows rest k else lookup_rows rest k := by
  simp [lookup_rows, List.filter_cons]

/-- In a store with duplicate-free identifiers, a present key matches exactly
one row. -/
theorem lookup_rows_singleton {store : List Planet} {k : Option String}
    (hn : (storeIds store).Nodup) (hk : k ∈ storeIds store) :
    ∃ q, lookup_rows store k = [q] := by
  induction store with
  | nil => simp at hk
  | cons p rest ih =>
    simp only [storeIds_cons, List.nodup_cons, List.mem_cons] at hn hk
    rcases hk with hk1 | hk2
    · refine ⟨p, ?_⟩
      rw [lookup_rows_cons, if_pos (by simp [hk1]), lookup_rows_eq_nil ?_]
      intro hmem
      exact hn.1 (hk1 ▸ hmem)
    · obtain ⟨q, hq⟩ := ih hn.2 hk2
      refine ⟨q, ?_⟩
      rw [lookup_rows_cons, if_neg ?_, hq]
      intro hbeq
      have : p.external_id = k := by simpa using hbeq
      exact hn.1 (this ▸ hk2)

/-- With valid (non-null) column values, exactly one matching row and no
environmental failure, the upsert overwrites that row in place and bumps
`updated`. -/
theorem update_or_create_planet_update (store : List Planet) (stats : Stats)
    (eid : Option String) (nm : String) (pop : Int) (cl te : List String)
    (hn : (storeIds store).Nodup) (hk : eid ∈ storeIds store) :
    update_or_create_planet store stats ⟨eid, some nm, some pop, some cl, some te⟩ false =
      .ok (store.map (updRow eid nm pop cl te), false,
           { stats with updated := stats.updated + 1 }) := by
  obtain ⟨q, hq⟩ := lookup_rows_singleton hn hk
  simp [update_or_create_planet, update_or_create, hq]

/-- Running the loop over a batch of well-formed items that map to valid rows
and whose identifiers are pairwise distinct and all absent from the store:
every item is inserted in batch order and counted as created. -/
theorem syncLoop_all_new (rand : Nat → Rand) (dbFail : Nat → Bool)
    (hdb : ∀ j, dbFail j = false) (items : List RawPlanet) :
    ∀ (i : Nat) (store : List Planet) (stats : Stats),
      (∀ p ∈ items, p.name ≠ Field.null) →
      (items.map itemId).Nodup →
      (∀ p ∈ items, itemId p ∉ storeIds store) →
      storeIds (syncLoop rand dbFail (items.map RawItem.item) i store stats).1 =
          storeIds store ++ items.map itemId ∧
        (syncLoop rand dbFail (items.map RawItem.item) i store stats).2 =
          ⟨stats.created + items.length, stats.updated, stats.errors,
           stats.total_processed + items.length⟩ := by
  induction items with
  | nil =>
    intro i store stats _ _ _
    refine ⟨by simp [syncLoop], ?_⟩
    simp only [List.map_nil, syncLoop, List.length_nil]
    ext <;> simp
  | cons p rest ih =>
    intro i store stats hnames hnd hdisj
    obtain ⟨nm, pop, cl, te, htd⟩ :=
      transform_item_valid p (rand i) (hnames p (List.mem_cons_self p rest))
    have habs : p.id.get ∉ storeIds store := hdisj p (List.mem_cons_self p rest)
    have hupd := update_or_create_planet_create store stats p.id.get nm pop cl te habs
    simp only [List.map_cons, List.nodup_cons] at hnd
    have hdisj2 : ∀ q ∈ rest,
        itemId q ∉ storeIds (store ++ [newRow p.id.get nm pop cl te]) := by
      intro q hq hin
      rw [storeIds_append] at hin
      rcases List.mem_append.1 hin with hmem | hkeq
      · exact hdisj q (List.mem_cons_of_mem p hq) hmem
      · simp only [storeIds_cons, storeIds_nil, newRow_external_id,
          List.mem_singleton] at hkeq
        have hmem2 : itemId q ∈ List.map itemId rest := List.mem_map_of_mem itemId hq
        rw [hkeq] at hmem2
        exact hnd.1 hmem2
    have hstep := ih (i + 1) (store ++ [newRow p.id.get nm pop cl te])
      ⟨stats.created + 1, stats.updated, stats.errors, stats.total_processed + 1⟩
      (fun q hq => hnames q (List.mem_cons_of_mem p hq)) hnd.2 hdisj2
    simp only [List.map_cons, syncLoop, htd, hdb i, hupd]
    refine ⟨?_, ?_⟩
    · rw [hstep.1]
      simp [itemId]
    · rw [hstep.2]
      ext <;> dsimp <;> omega

/-- Running the loop over a batch of well-formed items that map to valid rows
and whose identifiers each match exactly one existing row: every item is an
in-place update counted as updated, and the identifier sequence is
unchanged. -/
theorem syncLoop_all_existing (rand : Nat → Rand) (dbFail : Nat → Bool)
    (hdb : ∀ j, dbFail j = false) (items : List RawPlanet) :
    ∀ (i : Nat) (store : List Planet) (stats : Stats),
      (∀ p ∈ items, p.name ≠ Field.null) →
      (storeIds store).Nodup →
      (∀ p ∈ items, itemId p ∈ storeIds store) →
      storeIds (syncLoop rand dbFail (items.map RawItem.item) i store stats).1 =
          storeIds store ∧
        (syncLoop rand dbFail (items.map RawItem.item) i store stats).2 =
          ⟨stats.created, stats.updated + items.length, stats.errors,
           stats.total_processed + items.length⟩ := by
  induction items with
  | nil =>
    intro i store stats _ _ _
    refine ⟨by simp [syncLoop], ?_⟩
    simp only [List.map_nil, syncLoop, List.length_nil]
    ext <;> simp
  | cons p rest ih =>
    intro i store stats hnames hn hmem
    obtain ⟨nm, pop, cl, te, htd⟩ :=
      transform_item_valid p (rand i) (hnames p (List.mem_cons_self p rest))
    have hpmem : p.id.get ∈ storeIds store := hmem p (List.mem_cons_self p rest)
    have hupd := update_or_create_planet_update store stats p.id.get nm pop cl te hn hpmem
    have hpres := storeIds_map_updRow store p.id.get nm pop cl te
    have hstep := ih (i + 1) (store.map (updRow p.id.get nm pop cl te))
      ⟨stats.created, stats.updated + 1, stats.errors, stats.total_processed + 1⟩
      (fun q hq => hnames q (List.mem_cons_of_mem p hq))
      (by rw [hpres]; exact hn)
      (by intro q hq; rw [hpres]; exact hmem q (List.mem_cons_of_mem p hq))
    simp only [List.map_cons, syncLoop, htd, hdb i, hupd]
    refine ⟨?_, ?_⟩
    · rw [hstep.1, hpres]
    · rw [hstep.2]
      ext <;> dsimp <;> omega

/-- C2 (amended): syncing the same batch of well-formed items with non-null,
pairwise-distinct external identifiers twice, starting from an empty store,
yields `created = 0` and `updated = len(batch)` on the second run, and the
store then holds exactly `len(batch)` rows — provided every item maps to a
valid row, i.e. no item carries `name` present-with-null, which would violate
the NOT NULL name column and error out instead of persisting. -/
theorem sync_idempotent (items : List RawPlanet) (rand1 rand2 : Nat → Rand)
    (resp : FetchResponse) (init : Stats)
    (hresp : extract_planets resp = items.map RawItem.item)
    (hsome : ∀ p ∈ items, (itemId p).isSome)
    (hnames : ∀ p ∈ items, p.name ≠ Field.null)
    (hnodup : (items.map itemId).Nodup) :
    (sync_planets (sync_planets ⟨[], init⟩ (.ok resp) rand1 (fun _ => false)).2
        (.ok resp) rand2 (fun _ => false)).1 =
      .ok ⟨0, items.length, 0, items.length⟩ ∧
    (sync_planets (sync_planets ⟨[], init⟩ (.ok resp) rand1 (fun _ => false)).2
        (.ok resp) rand2 (fun _ => false)).2.store.length = items.length := by
  have h1 := syncLoop_all_new rand1 (fun _ => false) (fun _ => rfl) items 0 [] zeroStats
    hnames hnodup (by simp)
  have hids : storeIds
      (syncLoop rand1 (fun _ => false) (items.map RawItem.item) 0 [] zeroStats).1 =
      items.map itemId := by
    rw [h1.1]
    simp
  have h2 := syncLoop_all_existing rand2 (fun _ => false) (fun _ => rfl) items 0
    (syncLoop rand1 (fun _ => false) (items.map RawItem.item) 0 [] zeroStats).1 zeroStats
    hnames (by rw [hids]; exact hnodup)
    (by intro p hp; rw [hids]; exact List.mem_map_of_mem itemId hp)
  simp only [sync_planets, hresp]
  refine ⟨?_, ?_⟩
  · rw [h2.2]
    simp [zeroStats]
  · have hlen : (storeIds
        (syncLoop rand2 (fun _ => false) (items.map RawItem.item) 0
          (syncLoop rand1 (fun _ => false) (items.map RawItem.item) 0 [] zeroStats).1
          zeroStats).1).length = items.length := by
      rw [h2.1, hids]
      simp
    simpa [storeIds] using hlen

/-- Witness for C2: a concrete two-item batch with distinct non-null
identifiers, synced twice from an empty store. -/
theorem sync_idempotent_witness :
    (sync_planets (sync_planets ⟨[], zeroStats⟩
        (.ok ⟨some ⟨some [.item tatooine,
          .item ⟨.val "2", .val "Alderaan", .val 2000000000, .val ["temperate"], .val ["grasslands"]⟩]⟩⟩)
        (fun _ => rand0) (fun _ => false)).2
        (.ok ⟨some ⟨some [.item tatooine,
          .item ⟨.val "2", .val "Alderaan", .val 2000000000, .val ["temperate"], .val ["grasslands"]⟩]⟩⟩)
        (fun _ => rand0) (fun _ => false)).1 = .ok ⟨0, 2, 0, 2⟩ ∧
    (sync_planets (sync_planets ⟨[], zeroStats⟩
        (.ok ⟨some ⟨some [.item tatooine,
          .item ⟨.val "2", .val "Alderaan", .val 2000000000, .val ["temperate"], .val ["grasslands"]⟩]⟩⟩)
        (fun _ => rand0) (fun _ => false)).2
        (.ok ⟨some ⟨some [.item tatooine,
          .item ⟨.val "2", .val "Alderaan", .val 2000000000, .val ["temperate"], .val ["grasslands"]⟩]⟩⟩)
        (fun _ => rand0) (fun _ => false)).2.store.length = 2 :=
  sync_idempotent
    [tatooine, ⟨.val "2", .val "Alderaan", .val 2000000000, .val ["temperate"], .val ["grasslands"]⟩]
    (fun _ => rand0) (fun _ => rand0)
    ⟨some ⟨some [.item tatooine,
      .item ⟨.val "2", .val "Alderaan", .val 2000000000, .val ["temperate"], .val ["grasslands"]⟩]⟩⟩
    zeroStats rfl (by decide) (by decide) (by decide)

/-- A raw item with a non-null external identifier whose `name` key is
present with value null. -/
def null_name_item : RawPlanet :=
  ⟨.val "1", .null, .val 5, .val ["a"], .val ["b"]⟩

/-- C2 (counterexample): the unamended claim fails on a batch whose single
item has a non-null, unique externalId but carries `name` as present-null:
`.get("name", "")` yields `None` (the default applies only to an absent key),
the NOT NULL name column rejects the row with `IntegrityError` on both runs,
so the second run has `updated = 0` rather than `len(batch) = 1` and no row
is ever persisted. -/
theorem sync_idempotent_null_name_fails :
    sync_planets (sync_planets ⟨[], zeroStats⟩
        (.ok ⟨some ⟨some [.item null_name_item]⟩⟩) (fun _ => rand0) (fun _ => false)).2
        (.ok ⟨some ⟨some [.item null_name_item]⟩⟩) (fun _ => rand0) (fun _ => false) =
      (.ok ⟨0, 0, 2, 0⟩, ⟨[], ⟨0, 0, 2, 0⟩⟩) ∧
    [RawItem.item null_name_item].length = 1 ∧ (0 : Nat) ≠ 1 :=
  ⟨rfl, rfl, by decide⟩

end PlanetSync
